import Mathlib

/-!
Verification of the paginated list-fetch controller (`useSwapiList`) of the
SDEV257 Star Wars list-browser apps, as a shallow embedding in Lean 4.

The embedding follows `useSwapiList` in `src/star-wars/App.js` (both the plain
variant and the NetInfo variant) and `src/unnamed/part_001`:

  - `SwapiState` is the hook's state tuple
    (`items`, `nextUrl`, `loading`, `refreshing`, `error`).
  - `FetchOutcome` is the outcome of the awaited work inside `fetchPage`'s
    `try` block: a parsed success, a non-2xx response (`HTTP ${status}`),
    the NetInfo variant's `NO_NETWORK` detection, a generic transport
    rejection carrying `e.message`, or an `AbortError`.
  - `settle` is the `try`/`catch`/`finally` of `fetchPage` applied once the
    awaited work settles; `load` additionally models the synchronous prologue
    (`if (!url) return; setLoading(true); setError(null)`).
  - `refresh`, `loadMore`, `initialLoad` mirror the hook's callbacks and the
    mount effect.
  - `runOverlap` models two `fetchPage` invocations where the second is issued
    before the first settles: starting the second aborts the first's
    `AbortController`; whether that abort actually turns the first
    invocation's pending transport work into an `AbortError` is an
    environment choice (`interrupted`), as is which settlement runs last.
  - `parsePagePlanets` embeds the planets screen's `parsePage`, and
    `filteredItemsBy` embeds the client-side search filter of the list
    screens (`searchText.trim().toLowerCase()` + `includes`), with JS string
    helpers modelled on `String.data` (`jsTrim` covers the ASCII whitespace
    characters).
-/

namespace SwapiList

/-- JS truthiness of a nullable string (`null` and `""` are falsy). -/
def truthy : Option String → Bool
  | none => false
  | some s => !s.isEmpty

/-- The JS expression `x || null` on a nullable string: a falsy value
(`null`, `""`) becomes `null`. -/
def jsOrNull (o : Option String) : Option String :=
  if truthy o then o else none

/-- The `mode` argument of `fetchPage`: `"replace"` or `"append"`. -/
inductive Mode
  | replace
  | append
deriving DecidableEq

/-- The state tuple of `useSwapiList`:
`items`, `nextUrl`, `loading`, `refreshing`, `error`. -/
structure SwapiState (α : Type) where
  items : List α
  nextUrl : Option String
  loading : Bool
  refreshing : Bool
  error : Option String
deriving DecidableEq

/-- The `useState` initial values of the hook: empty items, `nextUrl`
initialised to `initialUrl`, no loading, no refreshing, no error. -/
def initState {α : Type} (initialUrl : String) : SwapiState α :=
  { items := [], nextUrl := some initialUrl, loading := false,
    refreshing := false, error := none }

/-- Outcome of the awaited work inside `fetchPage`'s `try` block. -/
inductive FetchOutcome (α : Type)
  | success (records : List α) (next : Option String)
  | httpError (status : Nat)
  | networkUnavailable
  | transportError (msg : String)
  | abortError
deriving DecidableEq

/-- The NetInfo variant's offline message. -/
def noNetworkMsg : String :=
  "No internet connection detected. Please check your network and pull to refresh once you're back online."

/-- The fallback of `e.message || "Something went wrong"`. -/
def fallbackMsg : String := "Something went wrong"

/-- The `try`/`catch`/`finally` of `fetchPage` applied when the awaited work
settles.  On success, `setItems(prev => mode === "replace" ? records
: [...prev, ...records])` and `setNextUrl(next || null)`; on a non-2xx
response the thrown message is `HTTP ${status}`; `NO_NETWORK` yields the
offline message; any other non-abort rejection yields
`e.message || "Something went wrong"`; an `AbortError` is swallowed.
The `finally` block always runs `setLoading(false); setRefreshing(false)`. -/
def settle {α : Type} (mode : Mode) (out : FetchOutcome α) (s : SwapiState α) :
    SwapiState α :=
  let s1 :=
    match out with
    | .success records next =>
        { s with
          items :=
            match mode with
            | .replace => records
            | .append => s.items ++ records,
          nextUrl := jsOrNull next }
    | .httpError status => { s with error := some ("HTTP " ++ toString status) }
    | .networkUnavailable => { s with error := some noNetworkMsg }
    | .transportError msg =>
        { s with error := some (if msg.isEmpty then fallbackMsg else msg) }
    | .abortError => s
  { s1 with loading := false, refreshing := false }

/-- The synchronous prologue of `fetchPage` once past the `if (!url) return`
guard: `setLoading(true); setError(null)` (aborting the previous controller
and installing a new one touch only the abort ref, not this state tuple). -/
def fetchStart {α : Type} (s : SwapiState α) : SwapiState α :=
  { s with loading := true, error := none }

/-- One complete, unsuperseded `fetchPage(url, mode)` invocation whose awaited
work yields `out`: a no-op on an empty (falsy) `url`, otherwise the prologue
followed by the settlement. -/
def load {α : Type} (url : String) (mode : Mode) (out : FetchOutcome α)
    (s : SwapiState α) : SwapiState α :=
  if url.isEmpty then s else settle mode out (fetchStart s)

/-- The `refresh` callback: `setRefreshing(true); setItems([]);
fetchPage(initialUrl, "replace")`, with the fetch settling on `out`. -/
def refresh {α : Type} (initialUrl : String) (out : FetchOutcome α)
    (s : SwapiState α) : SwapiState α :=
  load initialUrl .replace out { s with refreshing := true, items := [] }

/-- The `loadMore` callback: `if (!loading && nextUrl)
fetchPage(nextUrl, "append")`, with the fetch (when issued) settling on
`out`. -/
def loadMore {α : Type} (out : FetchOutcome α) (s : SwapiState α) :
    SwapiState α :=
  if !s.loading && truthy s.nextUrl then
    load (s.nextUrl.getD "") .append out s
  else s

/-- The mount effect: `setItems([]); setNextUrl(initialUrl);
fetchPage(initialUrl, "replace")`, with the fetch settling on `out`. -/
def initialLoad {α : Type} (initialUrl : String) (out : FetchOutcome α)
    (s : SwapiState α) : SwapiState α :=
  load initialUrl .replace out { s with items := [], nextUrl := some initialUrl }

/-- Two overlapping `fetchPage` invocations (both with non-empty urls): the
second is issued before the first settles, so the second's prologue aborts the
first invocation's `AbortController`.  `interrupted` says whether that abort
actually turned the first invocation's pending transport work into an
`AbortError` (the code contains no other staleness check);
`firstSettlesLast` says whether the first invocation's settlement runs after
the second's. -/
def runOverlap {α : Type} (mode1 mode2 : Mode) (out1 out2 : FetchOutcome α)
    (interrupted firstSettlesLast : Bool) (s : SwapiState α) : SwapiState α :=
  let s2 := fetchStart (fetchStart s)
  let eff1 := if interrupted then FetchOutcome.abortError else out1
  if firstSettlesLast then
    settle mode1 eff1 (settle mode2 out2 s2)
  else
    settle mode2 out2 (settle mode1 eff1 s2)

/-- The derived view returned by the hook: `hasMore: !!nextUrl`. -/
def hasMore {α : Type} (s : SwapiState α) : Bool := truthy s.nextUrl

/-- A raw planet entry of the `{ results: [...], next }` envelope
(`url` is absent in the mock, hence optional). -/
structure PlanetRaw where
  uid : String
  name : String
  url : Option String
deriving DecidableEq

/-- The domain record produced by the planets screen's `parsePage`. -/
structure PlanetRecord where
  id : String
  name : String
  url : Option String
deriving DecidableEq

/-- The planets list response body `{ results, next }` (either field may be
absent/null). -/
structure PlanetsJson where
  results : Option (List PlanetRaw)
  next : Option String
deriving DecidableEq

/-- The planets screen's `parsePage`: `(json.results || []).map(p => ({ id:
String(p.uid), name: p.name, url: p.url }))` and `next: json.next || null`
(`uid` is already a string in the wire format, so `String(p.uid)` is the
identity). -/
def parsePagePlanets (json : PlanetsJson) : List PlanetRecord × Option String :=
  ((json.results.getD []).map fun p => ⟨p.uid, p.name, p.url⟩,
   jsOrNull json.next)

/-- The planets screen's initial URL. -/
def planetsUrl : String := "https://www.swapi.tech/api/planets"

/-- A sequence of `loadMore` calls, the page fetched by the `k`-th call
succeeding with the `k`-th `(records, next)` pair. -/
def runLoadMores {α : Type} (pages : List (List α × Option String))
    (s : SwapiState α) : SwapiState α :=
  pages.foldl (fun st p => loadMore (.success p.1 p.2) st) s

/-- A page sequence is chained when every page except the last carries a
truthy continuation cursor for the next call to follow. -/
def chained {α : Type} : List (List α × Option String) → Bool
  | [] => true
  | p :: rest => (rest.isEmpty || truthy p.2) && chained rest

/-- ASCII whitespace, the subset of JS whitespace relevant here. -/
def isWhitespaceChar (c : Char) : Bool :=
  c = ' ' || c = '\t' || c = '\n' || c = '\r'

/-- Model of `String.prototype.trim()`: drop leading and trailing
whitespace. -/
def jsTrim (s : String) : String :=
  ⟨((s.data.dropWhile isWhitespaceChar).reverse.dropWhile
      isWhitespaceChar).reverse⟩

/-- Model of `String.prototype.toLowerCase()` (ASCII case folding). -/
def jsToLower (s : String) : String := ⟨s.data.map Char.toLower⟩

/-- Model of `String.prototype.includes(needle)` on character lists: a naive
left-to-right substring scan. -/
def charsIncludes (needle : List Char) : List Char → Bool
  | [] => needle.isEmpty
  | c :: t => needle.isPrefixOf (c :: t) || charsIncludes needle t

/-- Model of `hay.includes(needle)` on strings. -/
def strIncludes (hay needle : String) : Bool :=
  charsIncludes needle.data hay.data

/-- The list screens' client-side search filter:

    const normalizedSearch = searchText.trim().toLowerCase();
    const filteredItems =
      normalizedSearch.length === 0
        ? items
        : items.filter(item =>
            item.name.toLowerCase().includes(normalizedSearch));

parametrised by the searched field (`name` on the planets and spaceships
screens, `title` on the films screen). -/
def filteredItemsBy {α : Type} (key : α → String) (searchText : String)
    (items : List α) : List α :=
  let normalizedSearch := jsToLower (jsTrim searchText)
  if normalizedSearch.length = 0 then items
  else items.filter fun item => strIncludes (jsToLower (key item)) normalizedSearch

/-- Helper: `x || null` does not change JS truthiness. -/
theorem truthy_jsOrNull (o : Option String) : truthy (jsOrNull o) = truthy o := by
  unfold jsOrNull
  cases h : truthy o
  · rfl
  · exact h

/-- Helper: on a cursor that is `none` or a non-empty string, `x || null` is
the identity. -/
theorem jsOrNull_eq_self (o : Option String)
    (h : o = none ∨ ∃ u, o = some u ∧ ¬u.isEmpty) : jsOrNull o = o := by
  rcases h with h | ⟨u, rfl, hu⟩
  · simp [h, jsOrNull, truthy]
  · simp [jsOrNull, truthy, hu]

/-- Helper: the fields `items`, `nextUrl` and `error` of a settlement depend
only on those same three fields of the input state. -/
theorem settle_fields_congr {α : Type} (mode : Mode) (out : FetchOutcome α)
    (s t : SwapiState α) (hi : s.items = t.items) (hn : s.nextUrl = t.nextUrl)
    (he : s.error = t.error) :
    (settle mode out s).items = (settle mode out t).items ∧
    (settle mode out s).nextUrl = (settle mode out t).nextUrl ∧
    (settle mode out s).error = (settle mode out t).error := by
  cases out <;> cases mode <;> simp [settle, hi, hn, he]

/-- Claim C1, counterexample: with two overlapping `fetchPage` invocations in
replace mode (the second issued before the first settles), when the abort
issued at the start of the second does not interrupt the first's transport
work and the first settles last, the final `items` holds the superseded
invocation's records, not the records of the most recently issued
invocation.  The code has no staleness check at the point of response
handling, so the discard is not independent of the transport-level abort. -/
theorem stale_result_applied_after_supersede :
    (runOverlap .replace .replace
        (.success [(⟨"1", "Old", none⟩ : PlanetRecord)] none)
        (.success [(⟨"2", "New", none⟩ : PlanetRecord)] none)
        false true (initState planetsUrl)).items
      = [⟨"1", "Old", none⟩] ∧
    (settle .replace (.success [(⟨"2", "New", none⟩ : PlanetRecord)] none)
        (fetchStart (fetchStart (initState planetsUrl)))).items
      = [⟨"2", "New", none⟩] ∧
    ([(⟨"1", "Old", none⟩ : PlanetRecord)] ≠ [⟨"2", "New", none⟩]) := by
  refine ⟨rfl, rfl, by decide⟩

/-- Claim C1, amended: the superseded invocation's eventual resolution is
discarded exactly when the transport-level abort actually turned it into an
`AbortError`; in that case, and only then, the final `items`/`nextUrl`/
`lastError` are those produced by the most recently issued invocation alone,
whichever settlement runs last. -/
theorem superseded_discarded_when_abort_interrupts {α : Type}
    (mode1 mode2 : Mode) (out1 out2 : FetchOutcome α) (b : Bool)
    (s : SwapiState α) :
    (runOverlap mode1 mode2 out1 out2 true b s).items
        = (settle mode2 out2 (fetchStart (fetchStart s))).items ∧
    (runOverlap mode1 mode2 out1 out2 true b s).nextUrl
        = (settle mode2 out2 (fetchStart (fetchStart s))).nextUrl ∧
    (runOverlap mode1 mode2 out1 out2 true b s).error
        = (settle mode2 out2 (fetchStart (fetchStart s))).error := by
  cases b with
  | true => exact ⟨rfl, rfl, rfl⟩
  | false =>
      exact settle_fields_congr mode2 out2 _ _ rfl rfl rfl

/-- Claim C2, counterexample: a settlement by `AbortError` (cancellation in
favor of a newer call) does reset `loading` and `refreshing` to false, because
the `finally` block of `fetchPage` runs unconditionally. -/
theorem abort_settle_resets_loading_flag :
    (settle .append (.abortError (α := PlanetRecord))
        { items := [], nextUrl := some planetsUrl, loading := true,
          refreshing := true, error := none }).loading = false ∧
    (settle .append (.abortError (α := PlanetRecord))
        { items := [], nextUrl := some planetsUrl, loading := true,
          refreshing := true, error := none }).refreshing = false :=
  ⟨rfl, rfl⟩

/-- Claim C2, amended: on every settlement — success, failure, or
cancellation by abort — `loading` and `refreshing` are both set to false; a
superseded invocation's completion therefore does clobber the loading
indication of the newer in-flight request. -/
theorem settle_resets_flags {α : Type} (mode : Mode) (out : FetchOutcome α)
    (s : SwapiState α) :
    (settle mode out s).loading = false ∧ (settle mode out s).refreshing = false :=
  ⟨rfl, rfl⟩

/-- Claim C3: on a successful settlement, replace mode makes `items` exactly
the parsed records, append mode concatenates them after the existing items
with no de-duplication, and (for a parsed cursor that is `none` or a
non-empty string, the only values `parsePage` produces) `nextUrl` becomes
exactly the parsed cursor. -/
theorem settle_success_replace_append {α : Type} (s : SwapiState α)
    (records : List α) (next : Option String)
    (h : next = none ∨ ∃ u, next = some u ∧ ¬u.isEmpty) :
    (settle .replace (.success records next) s).items = records ∧
    (settle .append (.success records next) s).items = s.items ++ records ∧
    (settle .replace (.success records next) s).nextUrl = next ∧
    (settle .append (.success records next) s).nextUrl = next := by
  refine ⟨rfl, rfl, ?_, ?_⟩ <;> simpa [settle] using jsOrNull_eq_self next h

/-- Witness for claim C3 at a concrete input. -/
theorem settle_success_replace_append_witness :
    (settle .append
        (.success [(⟨"2", "Hoth", none⟩ : PlanetRecord)] (some "page2"))
        { items := [⟨"1", "Tatooine", none⟩], nextUrl := some "page2",
          loading := true, refreshing := false, error := none }).items
      = [⟨"1", "Tatooine", none⟩, ⟨"2", "Hoth", none⟩] ∧
    (settle .append
        (.success [(⟨"2", "Hoth", none⟩ : PlanetRecord)] (some "page2"))
        { items := [⟨"1", "Tatooine", none⟩], nextUrl := some "page2",
          loading := true, refreshing := false, error := none }).nextUrl
      = some "page2" := by
  have h := settle_success_replace_append
      { items := [(⟨"1", "Tatooine", none⟩ : PlanetRecord)],
        nextUrl := some "page2", loading := true, refreshing := false,
        error := none }
      [(⟨"2", "Hoth", none⟩ : PlanetRecord)] (some "page2")
      (Or.inr ⟨"page2", rfl, by decide⟩)
  exact ⟨h.2.1, h.2.2.2⟩

/-- Claim C4: a failed load invocation (non-2xx status, offline detection, or
generic transport failure) sets `lastError` to a message, leaves `items` and
`nextUrl` exactly unchanged, and resets `loading` to false; in particular a
failed `loadMore` leaves all previously loaded items intact. -/
theorem load_failure_atomic {α : Type} (url : String) (mode : Mode)
    (s : SwapiState α) (status : Nat) (msg : String) (hu : ¬url.isEmpty) :
    ((load url mode (.httpError status) s).items = s.items ∧
     (load url mode (.httpError status) s).nextUrl = s.nextUrl ∧
     (load url mode (.httpError status) s).error
        = some ("HTTP " ++ toString status) ∧
     (load url mode (.httpError status) s).loading = false) ∧
    ((load url mode (.transportError msg) s).items = s.items ∧
     (load url mode (.transportError msg) s).nextUrl = s.nextUrl ∧
     (load url mode (.transportError msg) s).error.isSome = true ∧
     (load url mode (.transportError msg) s).loading = false) ∧
    ((load url mode (.networkUnavailable (α := α)) s).items = s.items ∧
     (load url mode (.networkUnavailable (α := α)) s).nextUrl = s.nextUrl ∧
     (load url mode (.networkUnavailable (α := α)) s).error = some noNetworkMsg ∧
     (load url mode (.networkUnavailable (α := α)) s).loading = false) ∧
    (loadMore (.httpError status) s).items = s.items := by
  have hu' : url.isEmpty = false := by simpa using hu
  refine ⟨?_, ?_, ?_, ?_⟩
  · simp [load, hu', settle, fetchStart]
  · simp [load, hu', settle, fetchStart]
  · simp [load, hu', settle, fetchStart]
  · unfold loadMore
    split
    · unfold load
      split
      · rfl
      · simp [settle, fetchStart]
    · rfl

/-- Witness for claim C4 at a concrete input. -/
theorem load_failure_atomic_witness :
    (load planetsUrl Mode.replace (FetchOutcome.httpError 500)
        (initState (α := PlanetRecord) planetsUrl)).error
      = some ("HTTP " ++ toString 500) ∧
    (load planetsUrl Mode.replace (FetchOutcome.httpError 500)
        (initState (α := PlanetRecord) planetsUrl)).items = [] := by
  have h := load_failure_atomic (α := PlanetRecord) planetsUrl .replace
      (initState planetsUrl) 500 "boom" (by decide)
  exact ⟨h.1.2.2.1, h.1.1⟩

/-- Claim C5: `refresh()` marks `isRefreshing`, clears `items` (so the list
is transiently empty during the refresh window, with `refreshing` shown),
and runs `load(initialUrl, replace)`; once that load settles successfully,
`items` is exactly the fetched first page, regardless of the previous
items. -/
theorem refresh_replaces_items {α : Type} (initialUrl : String)
    (s : SwapiState α) (records : List α) (next : Option String)
    (out : FetchOutcome α) (h : ¬initialUrl.isEmpty) :
    (fetchStart { s with refreshing := true, items := ([] : List α) }).items
        = [] ∧
    (fetchStart { s with refreshing := true, items := ([] : List α) }).refreshing
        = true ∧
    refresh initialUrl out s
        = settle .replace out (fetchStart { s with refreshing := true, items := [] }) ∧
    (refresh initialUrl (.success records next) s).items = records := by
  have h' : initialUrl.isEmpty = false := by simpa using h
  refine ⟨rfl, rfl, ?_, ?_⟩
  · simp [refresh, load, h']
  · simp [refresh, load, h', settle, fetchStart]

/-- Witness for claim C5 at a concrete input: refreshing from a non-empty
stale list ends with exactly the newly fetched page. -/
theorem refresh_replaces_items_witness :
    (refresh planetsUrl
        (.success [(⟨"2", "Hoth", none⟩ : PlanetRecord)] none)
        { items := [⟨"1", "Tatooine", none⟩], nextUrl := none,
          loading := false, refreshing := false, error := none }).items
      = [⟨"2", "Hoth", none⟩] :=
  (refresh_replaces_items planetsUrl
      { items := [(⟨"1", "Tatooine", none⟩ : PlanetRecord)], nextUrl := none,
        loading := false, refreshing := false, error := none }
      [⟨"2", "Hoth", none⟩] none
      (.success [⟨"2", "Hoth", none⟩] none) (by decide)).2.2.2

/-- Claim C6: `loadMore()` leaves the whole state unchanged (no request is
issued) when `loading` is true or `nextUrl` is `none`; otherwise it runs
`load(nextUrl, append)`.  The hypothesis excludes `nextUrl = some ""`, a
value the hook never stores: `nextUrl` is initialised to a screen's
non-empty constant URL and updated only through `next || null`. -/
theorem loadMore_guard {α : Type} (out : FetchOutcome α) (s : SwapiState α)
    (h : s.nextUrl ≠ some "") :
    (s.loading = true ∨ s.nextUrl = none → loadMore out s = s) ∧
    (s.loading = false →
      ∀ u, s.nextUrl = some u → loadMore out s = load u .append out s) := by
  constructor
  · rintro (hl | hn)
    · simp [loadMore, hl]
    · simp [loadMore, hn, truthy]
  · intro hl u hu
    have hne : u.isEmpty = false := by
      rcases hne : u.isEmpty with _ | _
      · rfl
      · exact absurd (by rw [hu, (String.isEmpty_iff u).mp hne]) h
    simp [loadMore, hl, hu, truthy, hne]

/-- Witness for claim C6 at concrete inputs: a no-op while loading, and a
real `load(nextUrl, append)` otherwise. -/
theorem loadMore_guard_witness :
    loadMore (.success ([] : List PlanetRecord) none)
        { items := [], nextUrl := some planetsUrl, loading := true,
          refreshing := false, error := none }
      = { items := [], nextUrl := some planetsUrl, loading := true,
          refreshing := false, error := none } ∧
    loadMore (.success ([(⟨"2", "Hoth", none⟩ : PlanetRecord)]) none)
        { items := [⟨"1", "Tatooine", none⟩], nextUrl := some "page2",
          loading := false, refreshing := false, error := none }
      = load "page2" .append (.success [(⟨"2", "Hoth", none⟩ : PlanetRecord)] none)
          { items := [⟨"1", "Tatooine", none⟩], nextUrl := some "page2",
            loading := false, refreshing := false, error := none } := by
  constructor
  · exact (loadMore_guard _ _ (by decide)).1 (Or.inl rfl)
  · exact (loadMore_guard _ _ (by decide)).2 rfl "page2" rfl

/-- Claim C8: a non-2xx response surfaces `HTTP <status>` on `lastError`, the
offline detection surfaces its fixed message, a generic transport failure
surfaces its (non-empty) message verbatim, and an aborted request never sets
`lastError` (its settlement leaves `error` untouched). -/
theorem error_propagation_policy {α : Type} (mode : Mode) (s : SwapiState α)
    (status : Nat) (msg : String) (h : ¬msg.isEmpty) :
    (settle mode (.httpError status) s).error
        = some ("HTTP " ++ toString status) ∧
    (settle mode (.networkUnavailable (α := α)) s).error = some noNetworkMsg ∧
    (settle mode (.transportError msg) s).error = some msg ∧
    (settle mode (.abortError (α := α)) s).error = s.error := by
  have h' : msg.isEmpty = false := by simpa using h
  refine ⟨rfl, rfl, ?_, rfl⟩
  simp [settle, h']

/-- Witness for claim C8 at a concrete input. -/
theorem error_propagation_policy_witness :
    (settle .replace (.transportError (α := PlanetRecord) "boom")
        (initState planetsUrl)).error = some "boom" :=
  (error_propagation_policy .replace (initState planetsUrl) 500 "boom"
      (by decide)).2.2.1

/-- Claim C9: on the planets screen, parsing the mock body
`{results: [{uid: "1", name: "Tatooine"}], next: null}` and settling the
initial load leaves exactly one record with `id = "1"` (the stringified
`uid`) and `name = "Tatooine"`, and `hasMore` is false since the parsed
cursor is absent. -/
theorem planets_mock_initial_load :
    (initialLoad planetsUrl
        (.success
          (parsePagePlanets ⟨some [⟨"1", "Tatooine", none⟩], none⟩).1
          (parsePagePlanets ⟨some [⟨"1", "Tatooine", none⟩], none⟩).2)
        (initState planetsUrl)).items
      = [{ id := "1", name := "Tatooine", url := none }] ∧
    hasMore (initialLoad planetsUrl
        (.success
          (parsePagePlanets ⟨some [⟨"1", "Tatooine", none⟩], none⟩).1
          (parsePagePlanets ⟨some [⟨"1", "Tatooine", none⟩], none⟩).2)
        (initState planetsUrl)) = false ∧
    (initialLoad planetsUrl
        (.success
          (parsePagePlanets ⟨some [⟨"1", "Tatooine", none⟩], none⟩).1
          (parsePagePlanets ⟨some [⟨"1", "Tatooine", none⟩], none⟩).2)
        (initState planetsUrl)).nextUrl = none := by
  refine ⟨?_, ?_, ?_⟩ <;> decide

/-- Helper: from a not-loading state with a truthy cursor, a successful
`loadMore` produces exactly the appended state. -/
theorem loadMore_success_step {α : Type} (s : SwapiState α) (recs : List α)
    (nxt : Option String) (h1 : s.loading = false)
    (h2 : truthy s.nextUrl = true) :
    loadMore (.success recs nxt) s
      = { items := s.items ++ recs, nextUrl := jsOrNull nxt,
          loading := false, refreshing := false, error := none } := by
  obtain ⟨u, hu⟩ : ∃ u, s.nextUrl = some u := by
    cases hnu : s.nextUrl
    · rw [hnu] at h2; exact absurd h2 (by simp [truthy])
    · exact ⟨_, rfl⟩
  have hne : u.isEmpty = false := by
    rw [hu] at h2
    simpa [truthy] using h2
  simp [loadMore, load, settle, fetchStart, h1, hu, truthy, hne]

/-- Claim C7: across any chained sequence of successful `loadMore` calls
started from a quiescent state with a truthy cursor, `items` grows by exactly
the records of each successive page, concatenated in page order, and the
previously loaded items stay a prefix of the result (no reordering). -/
theorem loadMore_seq_appends_pages {α : Type}
    (pages : List (List α × Option String)) (s : SwapiState α)
    (h1 : s.loading = false) (h2 : truthy s.nextUrl = true)
    (h3 : chained pages = true) :
    (runLoadMores pages s).items = s.items ++ (pages.map Prod.fst).flatten ∧
    s.items <+: (runLoadMores pages s).items := by
  have main : ∀ (ps : List (List α × Option String)) (t : SwapiState α),
      t.loading = false → truthy t.nextUrl = true → chained ps = true →
      (runLoadMores ps t).items = t.items ++ (ps.map Prod.fst).flatten := by
    intro ps
    induction ps with
    | nil => intro t _ _ _; simp [runLoadMores]
    | cons p rest ih =>
        intro t ht1 ht2 ht3
        have hstep := loadMore_success_step t p.1 p.2 ht1 ht2
        have hrun : runLoadMores (p :: rest) t
            = runLoadMores rest (loadMore (.success p.1 p.2) t) := by
          simp [runLoadMores]
        rw [hrun, hstep]
        cases rest with
        | nil =>
            simp [runLoadMores]
        | cons q ts =>
            have hchain : truthy p.2 = true ∧ chained (q :: ts) = true := by
              have h' := ht3
              rw [chained] at h'
              simpa only [List.isEmpty_cons, Bool.false_or,
                Bool.and_eq_true] using h'
            rw [ih _ rfl (by rw [truthy_jsOrNull]; exact hchain.1) hchain.2]
            simp [List.append_assoc]
  refine ⟨main pages s h1 h2 h3, ?_⟩
  rw [main pages s h1 h2 h3]
  exact List.prefix_append _ _

/-- Witness for claim C7 at a concrete input: two chained successful pages
append in page order. -/
theorem loadMore_seq_appends_pages_witness :
    (runLoadMores
        [([(⟨"1", "Tatooine", none⟩ : PlanetRecord)], some "page2"),
         ([(⟨"2", "Hoth", none⟩ : PlanetRecord)], none)]
        (initState planetsUrl)).items
      = [⟨"1", "Tatooine", none⟩, ⟨"2", "Hoth", none⟩] := by
  have h := loadMore_seq_appends_pages
      [([(⟨"1", "Tatooine", none⟩ : PlanetRecord)], some "page2"),
       ([(⟨"2", "Hoth", none⟩ : PlanetRecord)], none)]
      (initState planetsUrl) rfl (by decide) (by decide)
  rw [h.1]
  decide

/-- Helper: the substring scan modelling `includes` decides exactly the
list-infix relation. -/
theorem charsIncludes_iff (needle hay : List Char) :
    charsIncludes needle hay = true ↔ needle <:+: hay := by
  induction hay with
  | nil =>
      simp [charsIncludes, List.infix_nil, List.isEmpty_iff]
  | cons c t ih =>
      simp [charsIncludes, ih, List.infix_cons_iff,
        List.isPrefixOf_iff_prefix]

/-- Helper: case folding preserves string length. -/
theorem jsToLower_length (s : String) : (jsToLower s).length = s.length := by
  show (s.data.map Char.toLower).length = s.data.length
  exact List.length_map _ _

/-- Helper: a string has length zero exactly when it is empty. -/
theorem length_eq_zero_iff (s : String) : s.length = 0 ↔ s = "" := by
  obtain ⟨data⟩ := s
  constructor
  · intro h
    have hd : data = [] := List.length_eq_zero.mp h
    rw [hd]
  · intro h
    rw [h]
    rfl

/-- Helper: `strIncludes` agrees with the decidable infix relation on the
underlying character lists. -/
theorem strIncludes_eq_decide (hay needle : String) :
    strIncludes hay needle = decide (needle.data <:+: hay.data) := by
  rcases h : decide (needle.data <:+: hay.data) with _ | _
  · have := of_decide_eq_false h
    rcases h2 : strIncludes hay needle with _ | _
    · rfl
    · exact absurd ((charsIncludes_iff needle.data hay.data).mp h2) this
  · exact (charsIncludes_iff needle.data hay.data).mpr (of_decide_eq_true h)

/-- Claim C10: the client-side search filter is pure and non-destructive —
with a search text that trims to empty it shows exactly `items`; with a
non-empty trimmed search it shows exactly the items whose searched field
contains the trimmed text case-insensitively, as a sublist of `items`
(original order preserved, `items` untouched). -/
theorem filteredItems_spec {α : Type} (key : α → String) (search : String)
    (items : List α) :
    (jsTrim search = "" → filteredItemsBy key search items = items) ∧
    (jsTrim search ≠ "" →
      List.Sublist (filteredItemsBy key search items) items ∧
      filteredItemsBy key search items
        = items.filter fun x =>
            decide ((jsToLower (jsTrim search)).data
              <:+: (jsToLower (key x)).data)) := by
  constructor
  · intro h
    have hz : (jsToLower (jsTrim search)).length = 0 := by
      rw [h]
      rfl
    simp [filteredItemsBy, hz]
  · intro h
    have hnz : ¬(jsToLower (jsTrim search)).length = 0 := by
      rw [jsToLower_length, length_eq_zero_iff]
      exact h
    constructor
    · simp only [filteredItemsBy, if_neg hnz]
      exact List.filter_sublist _
    · simp only [filteredItemsBy, if_neg hnz]
      refine List.filter_congr ?_
      intro x _
      exact strIncludes_eq_decide (jsToLower (key x)) (jsToLower (jsTrim search))

/-- Witness for claim C10 at concrete inputs: a whitespace-only search shows
every item, and a padded mixed-case search filters by case-insensitive
containment. -/
theorem filteredItems_spec_witness :
    filteredItemsBy (fun r : PlanetRecord => r.name) "   "
        [⟨"1", "Tatooine", none⟩, ⟨"2", "Hoth", none⟩]
      = [⟨"1", "Tatooine", none⟩, ⟨"2", "Hoth", none⟩] ∧
    filteredItemsBy (fun r : PlanetRecord => r.name) " tAt "
        [⟨"1", "Tatooine", none⟩, ⟨"2", "Hoth", none⟩]
      = List.filter
          (fun x =>
            decide ((jsToLower (jsTrim " tAt ")).data
              <:+: (jsToLower x.name).data))
          [⟨"1", "Tatooine", none⟩, ⟨"2", "Hoth", none⟩] := by
  constructor
  · exact (filteredItems_spec (fun r : PlanetRecord => r.name) "   " _).1
      (by decide)
  · exact ((filteredItems_spec (fun r : PlanetRecord => r.name) " tAt " _).2
      (by decide)).2

end SwapiList
